import Mathlib

/-!
Verification development for the billboard/UK-charts scraper.

The two source files (`scraper.py` for the Billboard Hot 100 / Billboard 200
charts, `uk_scraper.py` for the UK Official Charts) are shallowly embedded
below.  Pure string manipulation (`safe_int`, rank parsing, date parsing) is
translated character-for-character over `List Char`; BeautifulSoup pages are
modelled by records holding the results of the CSS-selector / `find_all` /
regex queries the code performs, while all logic *after* those queries is
translated directly.  Python strings are modelled over their ASCII fragment
(`str.isdigit`, `str.lower`, `str.strip` act on ASCII as their Lean
counterparts below do).  The Supabase REST backend is an external
collaborator; its documented semantics (DELETE filtered by `chart_date`
equality; batch INSERT; UPSERT with conflict target `(chart_date, rank)` and
`resolution=merge-duplicates`) is modelled as explicit state passing over a
per-table row list.
-/

/-! ## Python string primitives (ASCII fragment) -/

/-- Python whitespace characters stripped by `str.strip()` (ASCII fragment). -/
def pyIsWs (c : Char) : Bool :=
  c = ' ' || c = '\t' || c = '\n' || c = '\r' || c = '\x0b' || c = '\x0c'

/-- `str.strip()`: drop leading and trailing whitespace. -/
def pyStrip (s : String) : String :=
  String.mk (((s.toList.dropWhile pyIsWs).reverse.dropWhile pyIsWs).reverse)

/-- `str.replace(c, "")`: remove every occurrence of the character `c`. -/
def pyRemoveAll (c : Char) (s : String) : String :=
  String.mk (s.toList.filter (fun x => x != c))

/-- `str.lower` on one ASCII character. -/
def pyLowerChar (c : Char) : Char :=
  if 'A' ≤ c && c ≤ 'Z' then Char.ofNat (c.toNat + 32) else c

/-- `str.lower()` (ASCII fragment). -/
def pyLower (s : String) : String :=
  String.mk (s.toList.map pyLowerChar)

/-- `str.upper` on one ASCII character. -/
def pyUpperChar (c : Char) : Char :=
  if 'a' ≤ c && c ≤ 'z' then Char.ofNat (c.toNat - 32) else c

/-- `str.upper()` (ASCII fragment). -/
def pyUpper (s : String) : String :=
  String.mk (s.toList.map pyUpperChar)

/-- `str.isdigit()` over a character list: non-empty and all decimal digits. -/
def pyIsDigitL (l : List Char) : Bool :=
  !l.isEmpty && l.all Char.isDigit

/-- `str.isdigit()` (ASCII decimal digits). -/
def pyIsDigit (s : String) : Bool :=
  pyIsDigitL s.toList

/-- Value of a string of decimal digits (`int(s)` for an all-digit `s`). -/
def natOfDigitsL (l : List Char) : Nat :=
  l.foldl (fun n c => n * 10 + (c.toNat - 48)) 0

/-- `str.replace(".", "", 1)` over a character list: remove the first dot. -/
def removeFirstDotL : List Char → List Char
  | [] => []
  | c :: t => if c = '.' then t else c :: removeFirstDotL t

/-- First maximal run of decimal digits in `s` (`re.search(r"\d+", s)`),
as a number; `none` when `s` has no digit. -/
def firstDigitRun (s : String) : Option Nat :=
  let l := s.toList.dropWhile (fun c => !c.isDigit)
  if l.isEmpty then none else some (natOfDigitsL (l.takeWhile Char.isDigit))

namespace UkScraper

/-- Tokens `safe_int` maps to `None` after lowering (uk_scraper.py line 50). -/
def sentinelTokens : List String := ["new", "re", "n/a", "-"]

/-- Embedding of `safe_int` (uk_scraper.py lines 42-63).  `int(float(v))` on
a digits-with-one-dot token truncates to the digits before the dot; the
binary-float rounding of pathologically long fractional parts is not
modelled (exact for tokens of realistic length). -/
def safe_int (value : Option String) : Option Nat :=
  match value with
  | none => none
  | some v =>
    if v = "" then none
    else
      let w := pyStrip (pyRemoveAll ',' v)
      if sentinelTokens.contains (pyLower w) then none
      else if pyIsDigit w then some (natOfDigitsL w.toList)
      else if w.toList.contains '.' && pyIsDigitL (removeFirstDotL w.toList) then
        some (natOfDigitsL (w.toList.takeWhile (fun c => c != '.')))
      else none

/-- Modelled from the spec: claim C4's reading of the Metric Normalizer,
which accepts a numeric token only when it is all digits or all digits with
a single *trailing* dot, and returns null for every other token. -/
def safe_int_claimed (value : Option String) : Option Nat :=
  match value with
  | none => none
  | some v =>
    let w := pyStrip (pyRemoveAll ',' v)
    if (sentinelTokens ++ [""]).contains (pyLower w) then none
    else if pyIsDigit w then some (natOfDigitsL w.toList)
    else if w.toList.getLast? == some '.' && pyIsDigitL w.toList.dropLast then
      some (natOfDigitsL w.toList.dropLast)
    else none

/-- The amended contract for `safe_int`, stated in the spec's vocabulary:
after trimming and comma-stripping, sentinel tokens and the empty token map
to null, an all-digit token maps to its value, and a token consisting of
digits and exactly one dot (anywhere, with at least one digit) maps to the
truncated integer part (the digits before the dot); everything else is null. -/
def safe_int_amended (value : Option String) : Option Nat :=
  match value with
  | none => none
  | some v =>
    if v = "" then none
    else
      let w := pyStrip (pyRemoveAll ',' v)
      if sentinelTokens.contains (pyLower w) then none
      else if pyIsDigit w then some (natOfDigitsL w.toList)
      else if (w.toList.count '.' == 1) && w.toList.any Char.isDigit
                && w.toList.all (fun c => c.isDigit || c == '.') then
        some (natOfDigitsL (w.toList.takeWhile (fun c => c != '.')))
      else none

end UkScraper

/-! ## Dates

`datetime.date` values and the `strptime` format templates the two scrapers
use (`"%B %d, %Y"`, `"%b %d, %Y"`, `"%d %B %Y"`).  As in CPython's
`_strptime`, a whitespace in the format matches a run of whitespace, `%d`
matches one or two digits, `%Y` exactly four, month names match
case-insensitively, the whole string must be consumed, and the day is
validated against the month's length. -/

structure PyDate where
  year : Nat
  month : Nat
  day : Nat
deriving Repr, DecidableEq

/-- Zero-pad a number below 100 to two digits. -/
def pad2 (n : Nat) : String :=
  if n < 10 then "0" ++ toString n else toString n

/-- `date.isoformat()` / `str(date)`: `YYYY-MM-DD`. -/
def isoOfDate (d : PyDate) : String :=
  toString d.year ++ "-" ++ pad2 d.month ++ "-" ++ pad2 d.day

/-- Gregorian leap year. -/
def isLeap (y : Nat) : Bool :=
  (y % 4 == 0 && y % 100 != 0) || y % 400 == 0

/-- Number of days in a month, for `datetime.date` validation. -/
def daysInMonth (y m : Nat) : Nat :=
  if m = 2 then (if isLeap y then 29 else 28)
  else if m = 4 || m = 6 || m = 9 || m = 11 then 30
  else 31

/-- Full month names, lowercased, with their numbers (`%B`). -/
def monthsLong : List (String × Nat) :=
  [("january", 1), ("february", 2), ("march", 3), ("april", 4), ("may", 5),
   ("june", 6), ("july", 7), ("august", 8), ("september", 9), ("october", 10),
   ("november", 11), ("december", 12)]

/-- Abbreviated month names, lowercased, with their numbers (`%b`). -/
def monthsAbbr : List (String × Nat) :=
  [("jan", 1), ("feb", 2), ("mar", 3), ("apr", 4), ("may", 5), ("jun", 6),
   ("jul", 7), ("aug", 8), ("sep", 9), ("oct", 10), ("nov", 11), ("dec", 12)]

/-- Require at least one whitespace character and skip the whole run
(a literal blank in a `strptime` format). -/
def skipWs1 (l : List Char) : Option (List Char) :=
  match l with
  | [] => none
  | c :: t => if pyIsWs c then some (t.dropWhile pyIsWs) else none

/-- `datetime.strptime(s, "%B %d, %Y")` (or `%b` when given `monthsAbbr`),
returning `none` where CPython raises `ValueError`. -/
def strptimeMonthDY (months : List (String × Nat)) (s : String) : Option PyDate :=
  let l := (pyLower s).toList
  months.findSome? (fun mn =>
    if mn.1.toList.isPrefixOf l then
      match skipWs1 (l.drop mn.1.length) with
      | none => none
      | some r2 =>
        let ds := r2.takeWhile Char.isDigit
        let r3 := r2.dropWhile Char.isDigit
        if ds.length = 0 || ds.length > 2 then none
        else
          match r3 with
          | ',' :: r4 =>
            match skipWs1 r4 with
            | none => none
            | some r5 =>
              let ys := r5.takeWhile Char.isDigit
              let r6 := r5.dropWhile Char.isDigit
              if ys.length = 4 && r6.isEmpty then
                let day := natOfDigitsL ds
                let y := natOfDigitsL ys
                if 1 ≤ day && day ≤ daysInMonth y mn.2 then some ⟨y, mn.2, day⟩
                else none
              else none
          | _ => none
    else none)

/-- `datetime.strptime(s, "%d %B %Y")`, as used on the UK chart's
`"14 November 2025"` range prefix. -/
def strptimeDMonthY (s : String) : Option PyDate :=
  let l := (pyLower s).toList
  let ds := l.takeWhile Char.isDigit
  let r1 := l.dropWhile Char.isDigit
  if ds.length = 0 || ds.length > 2 then none
  else
    match skipWs1 r1 with
    | none => none
    | some r2 =>
      monthsLong.findSome? (fun mn =>
        if mn.1.toList.isPrefixOf r2 then
          match skipWs1 (r2.drop mn.1.length) with
          | none => none
          | some r3 =>
            let ys := r3.takeWhile Char.isDigit
            let r4 := r3.dropWhile Char.isDigit
            if ys.length = 4 && r4.isEmpty then
              let day := natOfDigitsL ds
              let y := natOfDigitsL ys
              if 1 ≤ day && day ≤ daysInMonth y mn.2 then some ⟨y, mn.2, day⟩
              else none
            else none
        else none)

/-- `re.search(r"Week of\s+(.+)", text, re.IGNORECASE)`, returning the
captured group: find `"week of"` case-insensitively, require at least one
whitespace character after it, and capture greedily to the end of the line. -/
def weekOfCapture (text : String) : Option String :=
  let cs := text.toList
  let ls := (pyLower text).toList
  (List.range cs.length).findSome? (fun i =>
    if ("week of".toList).isPrefixOf (ls.drop i) then
      let rest := cs.drop (i + 7)
      let w := (rest.takeWhile pyIsWs).length
      if w = 0 then none
      else
        (List.range w).findSome? (fun j =>
          let k := w - j
          match rest.drop k with
          | [] => none
          | c :: _ =>
            if c = '\n' then none
            else some (String.mk ((rest.drop k).takeWhile (fun ch => ch != '\n'))))
    else none)

/-! ## Data model

`Entry` is the row dictionary both scrapers build; `Elem` is one markup
element (tag name and `get_text()` result) as seen by
`extract_metric_number`'s `find` / `find_next` traversal, in document
order. -/

structure Entry where
  chart_date : String
  rank : Option Nat
  title : String
  artist : String
  last_week_rank : Option Nat
  peak_rank : Option Nat
  weeks_on_chart : Option Nat
  cover_image_url : Option String := none
deriving Repr, DecidableEq

structure Elem where
  name : String
  text : String
deriving Repr, DecidableEq

/-- Outcome of one iteration's body under the `try`/`except`: an entry is
contributed only when the body neither raised (`Except.error`) nor hit a
`continue` (`Except.ok none`). -/
def runBody {A E : Type} (r : Except E (Option A)) : Option A :=
  match r with
  | .ok (some a) => some a
  | _ => none

/-- Per-item try/except loop shared by all three extractors: `enumerate` the
containers, run the body, and on an exception (`Except.error`) or an
explicit skip (`Except.ok none`) contribute no entry and continue with the
remaining containers. -/
def loopSkipErrors {C A E : Type} (f : Nat → C → Except E (Option A)) (items : List C) :
    List A :=
  items.enum.filterMap (fun p => runBody (f p.1 p.2))

/-- Container-strategy cascade (`if not rows: rows = soup.select(...)`):
commit to the first non-empty selector result. -/
def firstNonEmpty3 {α : Type} (a b c : List α) : List α :=
  if a.isEmpty then (if b.isEmpty then c else b) else a

namespace Scraper

/-! Embedding of `scraper.py`.  A `BPage` records the query results the
parser asks BeautifulSoup for: the texts of the `span`/`h2`/`p`/`div`
elements containing `"Week of"` (resp. `"Week Of"`), and the container
lists returned by the three row selectors tried in order
(`ul.o-chart-results-list-row`, `li.o-chart-results-list__item`,
`li.chart-list__element`).  A `BItem` records one container's sub-query
results: the text of the rank `span` found by the class-based lookups
(`none` when neither lookup matches), the `h3` title text, the `c-label`
artist text, the cover `img` attributes, and the container's `span`/`div`
element sequence in document order, which `extract_metric_number` traverses. -/

structure BImg where
  dataLazyImg : Option String
  dataSrc : Option String
  src : Option String
deriving Repr, DecidableEq

structure BItem where
  rankText : Option String
  titleText : Option String
  artistText : Option String
  elems : List Elem
  img : Option BImg := none
deriving Repr, DecidableEq

structure BPage where
  weekOfCandidates : List String
  weekOfCandidates2 : List String
  rows1 : List BItem
  rows2 : List BItem
  rows3 : List BItem
deriving Repr, DecidableEq

/-- Embedding of `extract_chart_date` (scraper.py lines 58-93): collect the
`"Week of"` candidates (falling back to `"Week Of"` when there are none),
and return the first candidate whose captured date string parses with
`"%B %d, %Y"` or `"%b %d, %Y"`; `None` on total failure. -/
def extract_chart_date (p : BPage) : Option PyDate :=
  let candidates :=
    if p.weekOfCandidates.isEmpty then p.weekOfCandidates2 else p.weekOfCandidates
  candidates.findSome? (fun text =>
    match weekOfCapture text with
    | none => none
    | some g =>
      let ds := pyStrip g
      match strptimeMonthDY monthsLong ds with
      | some d => some d
      | none => strptimeMonthDY monthsAbbr ds)

/-- Is the element a `span` or `div` (the tag filter used by both lambdas in
`extract_metric_number`)? -/
def isSpanDiv (t : Elem) : Bool :=
  t.name == "span" || t.name == "div"

/-- Embedding of `extract_metric_number` (scraper.py lines 96-123): find the
first `span`/`div` whose stripped text equals `label` exactly
(case-sensitively), then the next following `span`/`div` whose stripped text
is all digits once dashes are removed; return its value if the text itself
is all digits, else `None`. -/
def extract_metric_number (container : List Elem) (label : String) : Option Nat :=
  match container.findIdx? (fun t => isSpanDiv t && pyStrip t.text == label) with
  | none => none
  | some i =>
    match (container.drop (i + 1)).find?
        (fun t => isSpanDiv t && pyIsDigit (pyRemoveAll '-' (pyStrip t.text))) with
    | none => none
    | some vtag =>
      let text := pyStrip vtag.text
      if !pyIsDigit text then none
      else some (natOfDigitsL text.toList)

/-- Modelled from the spec: claim C8's reading of the labeled-metric
extractor, which matches the label case-insensitively and accepts as value
the next following element whose text is purely numeric after comma and
dash stripping. -/
def extract_metric_number_claimed (container : List Elem) (label : String) : Option Nat :=
  match container.findIdx? (fun t => pyUpper (pyStrip t.text) == pyUpper label) with
  | none => none
  | some i =>
    match (container.drop (i + 1)).find?
        (fun t => pyIsDigit (pyRemoveAll ',' (pyRemoveAll '-' (pyStrip t.text)))) with
    | none => none
    | some vtag =>
      some (natOfDigitsL (pyRemoveAll ',' (pyRemoveAll '-' (pyStrip vtag.text))).toList)

/-- Rank recovery in `parse_hot_100_items` / `parse_billboard_200_items`
(scraper.py lines 193-213): the first digit run of the rank element's text,
with an `idx + 1` fallback when there is no rank element or no digit run. -/
def hot100Rank (rankText : Option String) (idx : Nat) : Nat :=
  match rankText with
  | some t =>
    match firstDigitRun (pyStrip t) with
    | some n => n
    | none => idx + 1
  | none => idx + 1

/-- Python `a or b` over optional strings: `b` when `a` is `None` or empty. -/
def pyOrStr (a b : Option String) : Option String :=
  match a with
  | some s => if s == "" then b else some s
  | none => b

/-- One Hot 100 container's entry (loop body of `parse_hot_100_items`,
scraper.py lines 191-248); the body appends unconditionally. -/
def hot100Item (chartDate : String) (idx : Nat) (it : BItem) : Entry :=
  let title := match it.titleText with
    | some t => pyStrip t
    | none => "Unknown Title"
  let artist := match it.artistText with
    | some t => pyStrip t
    | none => "Unknown Artist"
  { chart_date := chartDate
    rank := some (hot100Rank it.rankText idx)
    title := title
    artist := artist
    last_week_rank := extract_metric_number it.elems "LW"
    peak_rank := extract_metric_number it.elems "PEAK"
    weeks_on_chart := extract_metric_number it.elems "WEEKS"
    cover_image_url := none }

/-- One Billboard 200 container's entry (scraper.py lines 288-353): like
`hot100Item` but with the `"Unknown Album"` sentinel and the cover image
attribute chain `data-lazy-img or data-src or src`. -/
def billboard200Item (chartDate : String) (idx : Nat) (it : BItem) : Entry :=
  let title := match it.titleText with
    | some t => pyStrip t
    | none => "Unknown Album"
  let artist := match it.artistText with
    | some t => pyStrip t
    | none => "Unknown Artist"
  let cover := match it.img with
    | none => none
    | some im => pyOrStr im.dataLazyImg (pyOrStr im.dataSrc im.src)
  { chart_date := chartDate
    rank := some (hot100Rank it.rankText idx)
    title := title
    artist := artist
    last_week_rank := extract_metric_number it.elems "LW"
    peak_rank := extract_metric_number it.elems "PEAK"
    weeks_on_chart := extract_metric_number it.elems "WEEKS"
    cover_image_url := cover }

/-- Embedding of `parse_hot_100_items` (scraper.py lines 163-253); `today`
is `dt.date.today()`, threaded explicitly. -/
def parse_hot_100_items (today : PyDate) (p : BPage) : List Entry :=
  let chartDate := isoOfDate ((extract_chart_date p).getD today)
  let rows := firstNonEmpty3 p.rows1 p.rows2 p.rows3
  loopSkipErrors
    (fun idx c => (Except.ok (some (hot100Item chartDate idx c)) : Except Unit (Option Entry)))
    rows

/-- Embedding of `parse_billboard_200_items` (scraper.py lines 269-358). -/
def parse_billboard_200_items (today : PyDate) (p : BPage) : List Entry :=
  let chartDate := isoOfDate ((extract_chart_date p).getD today)
  let rows := firstNonEmpty3 p.rows1 p.rows2 p.rows3
  loopSkipErrors
    (fun idx c => (Except.ok (some (billboard200Item chartDate idx c)) : Except Unit (Option Entry)))
    rows

/-- Modelled from the spec: Supabase upsert of one row with conflict target
`(chart_date, rank)` and `resolution=merge-duplicates` — an existing row
with the same key is overwritten in place, otherwise the row is appended
(spec section 6, "Outbound (persistence)"). -/
def upsertRow (store : List Entry) (row : Entry) : List Entry :=
  if store.any (fun r => r.chart_date == row.chart_date && r.rank == row.rank) then
    store.map (fun r =>
      if r.chart_date == row.chart_date && r.rank == row.rank then row else r)
  else store ++ [row]

/-- Embedding of `supabase_upsert` (scraper.py lines 126-155) acting on one
table's persisted row list: empty batches are skipped, a rejected request
raises, otherwise the whole batch is merge-upserted. -/
def supabase_upsert (requestOk : Bool) (store : List Entry) (rows : List Entry) :
    Except String (List Entry) :=
  if rows.isEmpty then .ok store
  else if requestOk then .ok (rows.foldl upsertRow store)
  else .error "Supabase upsert failed"

/-- Embedding of `main` (scraper.py lines 374-381), with the two fetches as
explicit outcomes (`fetch_soup` raises on transport failure, which nothing
in `main` catches).  The result is the trace of `(table, batch)` pairs
handed to `supabase_upsert`, or the uncaught error. -/
def main (fetchHot fetch200 : Except String BPage) (today : PyDate) :
    Except String (List (String × List Entry)) := do
  let hotSoup ← fetchHot
  let hotEntries := parse_hot_100_items today hotSoup
  let t1 := if hotEntries.isEmpty then [] else [("hot_100_entries", hotEntries)]
  let soup200 ← fetch200
  let albumEntries := parse_billboard_200_items today soup200
  pure (t1 ++ (if albumEntries.isEmpty then [] else [("billboard_200_entries", albumEntries)]))

end Scraper

namespace UkScraper

/-! Embedding of `uk_scraper.py`.  A `UkPage` records the query results the
parser asks for: the text of `h3.chart-listing__header-date` (if any), the
first group of the date-range regex over the page's full text (if the regex
matches), and the container lists of the three selectors tried in order
(`ol.chart-listing > li.chart-listing-item`, `ol > li`,
`.chart-item-content`).  A `UkItem` records one container's sub-query
results, and a `UkStat` one `.metric-chart-stat` block's title and value
texts. -/

structure UkStat where
  title : Option String
  value : Option String
deriving Repr, DecidableEq

structure UkItem where
  rankText : Option String
  chartName : Option String
  chartArtist : Option String
  stats : Option (List UkStat)
deriving Repr, DecidableEq

structure UkPage where
  headerDateText : Option String
  rangeMatchGroup1 : Option String
  sel1 : List UkItem
  sel2 : List UkItem
  sel3 : List UkItem
deriving Repr, DecidableEq

/-- The date actually parsed by `extract_chart_date_from_soup`
(uk_scraper.py lines 66-94): only when the header `h3` is absent does the
code try the `'DD Month YYYY - DD Month YYYY'` range regex and parse its
first group with `"%d %B %Y"`; when the header `h3` is present the matched
branch is a no-op (`pass`), so no date is ever parsed from it. -/
def ukParsedDate (p : UkPage) : Option String :=
  match p.headerDateText with
  | none => p.rangeMatchGroup1.bind (fun ds => (strptimeDMonthY ds).map isoOfDate)
  | some _ => none

/-- Embedding of `extract_chart_date_from_soup` (uk_scraper.py lines
66-94): the parsed date when one is found, else today's ISO date
(`datetime.now().date().isoformat()`, threaded explicitly). -/
def extract_chart_date_from_soup (today : PyDate) (p : UkPage) : String :=
  (ukParsedDate p).getD (isoOfDate today)

/-- Rank recovery in `parse_officialcharts_soup` (uk_scraper.py lines
132-135): `safe_int(rank_el.get_text(strip=True)) if rank_el else (idx + 1)`
— note the `idx + 1` fallback applies only when the rank element is absent,
so a present but unparsable rank token yields `None`. -/
def ukRank (rankText : Option String) (idx : Nat) : Option Nat :=
  match rankText with
  | some t => safe_int (some (pyStrip t))
  | none => some (idx + 1)

/-- Metric fold of `parse_officialcharts_soup` (uk_scraper.py lines
152-171): for each `.metric-chart-stat` with both a title and a value
element, uppercase the title and assign `safe_int` of the value to
`lw`/`peak`/`weeks` on `"LW"`/`"PEAK"`/`"WKS"`. -/
def ukMetrics (stats : List UkStat) : Option Nat × Option Nat × Option Nat :=
  stats.foldl
    (fun acc stat =>
      match stat.title, stat.value with
      | some tt, some vv =>
        let t := pyUpper (pyStrip tt)
        let v := safe_int (some (pyStrip vv))
        if t == "LW" then (v, acc.2.1, acc.2.2)
        else if t == "PEAK" then (acc.1, v, acc.2.2)
        else if t == "WKS" then (acc.1, acc.2.1, v)
        else acc
      | _, _ => acc)
    (none, none, none)

/-- One UK container's entry (loop body of `parse_officialcharts_soup`,
uk_scraper.py lines 130-186): `none` when the item is skipped because both
title and artist are the unresolved sentinels. -/
def ukItemBody (chartDate : String) (idx : Nat) (it : UkItem) : Option Entry :=
  let rank := ukRank it.rankText idx
  let title := match it.chartName with
    | some t => pyStrip t
    | none => "Unknown Title"
  let artist := match it.chartArtist with
    | some t => pyStrip t
    | none => "Unknown Artist"
  if title == "Unknown Title" && artist == "Unknown Artist" then none
  else
    let m := match it.stats with
      | some stats => ukMetrics stats
      | none => (none, none, none)
    some
      { chart_date := chartDate
        rank := rank
        title := title
        artist := artist
        last_week_rank := m.1
        peak_rank := m.2.1
        weeks_on_chart := m.2.2
        cover_image_url := none }

/-- Embedding of `parse_officialcharts_soup` (uk_scraper.py lines
100-189). -/
def parse_officialcharts_soup (today : PyDate) (p : UkPage) : List Entry :=
  let chartDate := extract_chart_date_from_soup today p
  let rows := firstNonEmpty3 p.sel1 p.sel2 p.sel3
  loopSkipErrors
    (fun idx c => (Except.ok (ukItemBody chartDate idx c) : Except Unit (Option Entry)))
    rows

/-- Which of the two Supabase requests of `replace_entries_for_date` were
actually issued. -/
structure RTrace where
  deleteAttempted : Bool
  insertAttempted : Bool
deriving Repr, DecidableEq

/-- Embedding of `replace_entries_for_date` (uk_scraper.py lines 214-241)
acting on one table's persisted row list.  `deleteOk` / `insertOk` are the
outcomes of the two REST requests: a failed DELETE leaves the store
untouched and is only logged, the INSERT is issued regardless, and a failed
INSERT raises (`r_ins.raise_for_status()`).  The DELETE removes exactly the
rows whose `chart_date` equals the batch's first entry's date (spec
section 6's `DELETE` filtered by `chart_date` equality). -/
def replace_entries_for_date (deleteOk insertOk : Bool) (store entries : List Entry) :
    Except String (List Entry) × RTrace :=
  match entries with
  | [] => (.ok store, ⟨false, false⟩)
  | e0 :: _ =>
    if e0.chart_date = "" then (.ok store, ⟨false, false⟩)
    else
      let store1 :=
        if deleteOk then store.filter (fun r => !(r.chart_date == e0.chart_date))
        else store
      if insertOk then (.ok (store1 ++ entries), ⟨true, true⟩)
      else (.error "insert failed", ⟨true, true⟩)

/-- Embedding of `fetch_official_chart` (uk_scraper.py lines 192-207): a
transport failure is caught inside the function, logged, and turned into an
empty entry list; otherwise the fetched page is parsed. -/
def fetch_official_chart (resp : Except String UkPage) (today : PyDate) : List Entry :=
  match resp with
  | .error _ => []
  | .ok p => parse_officialcharts_soup today p

/-- Embedding of the `__main__` flow of uk_scraper.py (lines 248-268):
`update_uk_singles_chart()` then `update_uk_albums_chart()`, each fetching
its chart and handing the batch to `replace_entries_for_date`.  The result
is the trace of `(table, batch)` pairs handed to the Store Reconciler. -/
def update_uk_charts (respSingles respAlbums : Except String UkPage) (today : PyDate) :
    List (String × List Entry) :=
  [("uk_singles_entries", fetch_official_chart respSingles today),
   ("uk_albums_entries", fetch_official_chart respAlbums today)]

end UkScraper

/-! ## Concrete fixtures used by witnesses and counterexamples -/

/-- A fixed "today" for concrete runs. -/
def dEx : PyDate := ⟨2025, 11, 22⟩

/-- A persisted row for the fixed chart date. -/
def rowEx (rank : Nat) (title : String) : Entry :=
  { chart_date := "2025-11-22", rank := some rank, title := title, artist := "A",
    last_week_rank := none, peak_rank := none, weeks_on_chart := none,
    cover_image_url := none }

/-- Store holding the previous run's 3 rows for the date. -/
def storeEx : List Entry := [rowEx 1 "Old1", rowEx 2 "Old2", rowEx 3 "Old3"]

/-- A shorter re-run batch: only ranks 1 and 2. -/
def batchEx : List Entry := [rowEx 1 "New1", rowEx 2 "New2"]

/-- The persisted rows of a table whose `chart_date` equals `d`. -/
def rowsForDate (store : List Entry) (d : String) : List Entry :=
  store.filter (fun r => r.chart_date == d)

/-- A Billboard container none of whose sub-queries match. -/
def bItemBlank : Scraper.BItem := ⟨none, none, none, [], none⟩

/-- A Billboard page with one blank container and no date text. -/
def bPageBlankItem : Scraper.BPage := ⟨[], [], [bItemBlank], [], []⟩

/-- A Billboard page with no date text and no containers. -/
def bPageEmpty : Scraper.BPage := ⟨[], [], [], [], []⟩

/-- The double-sentinel entry the Hot 100 parser builds from `bItemBlank`. -/
def sentinelEntryEx : Entry :=
  { chart_date := "2025-11-22", rank := some 1, title := "Unknown Title",
    artist := "Unknown Artist", last_week_rank := none, peak_rank := none,
    weeks_on_chart := none, cover_image_url := none }

/-- A UK container whose rank element reads `"New"`. -/
def ukItemNewRank : UkScraper.UkItem := ⟨some "New", some "Song", some "Artist", none⟩

/-- A UK page with one `"New"`-ranked container and no date markup. -/
def ukPageNewRank : UkScraper.UkPage := ⟨none, none, [ukItemNewRank], [], []⟩

/-- A Billboard container whose rank span reads `"0"`. -/
def bItemZeroRank : Scraper.BItem := ⟨some "0", some "T", some "A", [], none⟩

/-- A Billboard page with the `"0"`-ranked container. -/
def bPageZeroRank : Scraper.BPage := ⟨[], [], [bItemZeroRank], [], []⟩

/-- A well-formed UK container. -/
def ukItemGood : UkScraper.UkItem := ⟨some "1", some "Song", some "Artist", none⟩

/-- A UK page with one well-formed container and no date markup. -/
def ukPageGood : UkScraper.UkPage := ⟨none, none, [ukItemGood], [], []⟩

/-- The entry the UK parser builds from `ukPageGood` when "today" is `dEx`. -/
def ukEntryGood : Entry :=
  { chart_date := "2025-11-22", rank := some 1, title := "Song", artist := "Artist",
    last_week_rank := none, peak_rank := none, weeks_on_chart := none,
    cover_image_url := none }

/-- Elements whose label reads `"Lw"` (wrong case) followed by a numeric value. -/
def elemsLwCase : List Elem := [⟨"span", "Lw"⟩, ⟨"span", "5"⟩]

/-- A loop body whose item 0 raises. -/
def exBodyF (i : Nat) (_u : Unit) : Except String (Option Nat) :=
  if i = 0 then .error "boom" else .ok (some i)

/-- A loop body whose item 0 is skipped without raising. -/
def exBodyG (i : Nat) (_u : Unit) : Except String (Option Nat) :=
  if i = 0 then .ok none else .ok (some i)

/-! ## Helper lemmas -/

theorem mem_removeFirstDotL_of_ne {x : Char} (hx : x ≠ '.') :
    ∀ l : List Char, x ∈ l → x ∈ removeFirstDotL l := by
  intro l hl
  induction l with
  | nil => simp at hl
  | cons c t ih =>
    rcases List.mem_cons.mp hl with h | h
    · subst h
      simp only [removeFirstDotL]
      rw [if_neg hx]
      exact List.mem_cons_self _ _
    · simp only [removeFirstDotL]
      split
      · next hc => subst hc; exact h
      · exact List.mem_cons_of_mem _ (ih h)

theorem mem_of_mem_removeFirstDotL {x : Char} :
    ∀ l : List Char, x ∈ removeFirstDotL l → x ∈ l := by
  intro l hl
  induction l with
  | nil => simp [removeFirstDotL] at hl
  | cons c t ih =>
    simp only [removeFirstDotL] at hl
    split at hl
    · exact List.mem_cons_of_mem _ hl
    · rcases List.mem_cons.mp hl with h | h
      · subst h; exact List.mem_cons_self _ _
      · exact List.mem_cons_of_mem _ (ih h)

theorem removeFirstDotL_digit_aux :
    ∀ l : List Char,
      ('.' ∈ l ∧ ∀ x ∈ removeFirstDotL l, x.isDigit = true) ↔
      (l.count '.' = 1 ∧ ∀ x ∈ l, x.isDigit = true ∨ x = '.') := by
  intro l
  induction l with
  | nil => simp
  | cons c t ih =>
    by_cases hc : c = '.'
    · subst hc
      simp only [removeFirstDotL, if_pos rfl]
      constructor
      · rintro ⟨-, hall⟩
        have hnot : '.' ∉ t := by
          intro hmem
          have := hall '.' hmem
          simp at this
        constructor
        · simp [List.count_cons, List.count_eq_zero.mpr hnot]
        · intro x hx
          rcases List.mem_cons.mp hx with rfl | hx
          · right; rfl
          · left; exact hall x hx
      · rintro ⟨hcount, hall⟩
        have hnot : '.' ∉ t := by
          intro hmem
          have h1 : 1 ≤ t.count '.' := List.one_le_count_iff.mpr hmem
          simp [List.count_cons] at hcount
          omega
        refine ⟨List.mem_cons_self _ _, ?_⟩
        intro x hx
        rcases hall x (List.mem_cons_of_mem _ hx) with h | h
        · exact h
        · exact absurd (h ▸ hx) hnot
    · simp only [removeFirstDotL, if_neg hc]
      constructor
      · rintro ⟨hdot, hall⟩
        rcases List.mem_cons.mp hdot with h | hdot
        · exact absurd h.symm hc
        have hcd : c.isDigit = true := hall c (List.mem_cons_self _ _)
        have htail : ∀ x ∈ removeFirstDotL t, x.isDigit = true := fun x hx =>
          hall x (List.mem_cons_of_mem _ hx)
        rcases ih.mp ⟨hdot, htail⟩ with ⟨hcount, hall2⟩
        constructor
        · simp [List.count_cons, hcount, Ne.symm hc]
        · intro x hx
          rcases List.mem_cons.mp hx with rfl | hx
          · exact Or.inl hcd
          · exact hall2 x hx
      · rintro ⟨hcount, hall⟩
        have hcount' : t.count '.' = 1 := by
          simpa [List.count_cons, Ne.symm hc] using hcount
        have hall2 : ∀ x ∈ t, x.isDigit = true ∨ x = '.' := fun x hx =>
          hall x (List.mem_cons_of_mem _ hx)
        rcases ih.mpr ⟨hcount', hall2⟩ with ⟨hdot, htail⟩
        have hcd : c.isDigit = true := by
          rcases hall c (List.mem_cons_self _ _) with h | h
          · exact h
          · exact absurd h hc
        refine ⟨List.mem_cons_of_mem _ hdot, ?_⟩
        intro x hx
        rcases List.mem_cons.mp hx with rfl | hx
        · exact hcd
        · exact htail x hx

theorem dotCond_eq (l : List Char) :
    (l.contains '.' && pyIsDigitL (removeFirstDotL l)) =
      ((l.count '.' == 1) && l.any Char.isDigit &&
        l.all (fun c => c.isDigit || c == '.')) := by
  rw [Bool.eq_iff_iff]
  simp only [List.contains, Bool.and_eq_true, List.elem_eq_mem, decide_eq_true_eq,
    pyIsDigitL, Bool.not_eq_true', List.isEmpty_eq_false_iff_exists_mem,
    List.all_eq_true, List.any_eq_true, beq_iff_eq, Bool.or_eq_true]
  constructor
  · rintro ⟨hdot, ⟨y, hy⟩, hall⟩
    have haux := (removeFirstDotL_digit_aux l).mp ⟨hdot, hall⟩
    refine ⟨⟨haux.1, ?_⟩, ?_⟩
    · exact ⟨y, mem_of_mem_removeFirstDotL l hy, hall y hy⟩
    · intro x hx
      rcases haux.2 x hx with h | h
      · exact Or.inl h
      · exact Or.inr h
  · rintro ⟨⟨hcount, y, hy, hyd⟩, hall⟩
    have hall' : ∀ x ∈ l, x.isDigit = true ∨ x = '.' := by
      intro x hx
      rcases hall x hx with h | h
      · exact Or.inl h
      · exact Or.inr h
    have haux := (removeFirstDotL_digit_aux l).mpr ⟨hcount, hall'⟩
    have hyne : y ≠ '.' := by
      intro h
      subst h
      simp at hyd
    exact ⟨haux.1, ⟨y, mem_removeFirstDotL_of_ne hyne l hy⟩, haux.2⟩

theorem mem_loopSkipErrors {C A E : Type} (f : Nat → C → Except E (Option A))
    (items : List C) (a : A) (h : a ∈ loopSkipErrors f items) :
    ∃ i c, f i c = Except.ok (some a) := by
  unfold loopSkipErrors at h
  rcases List.mem_filterMap.mp h with ⟨p, hp, hr⟩
  refine ⟨p.1, p.2, ?_⟩
  rcases hf : f p.1 p.2 with e | o
  · rw [hf] at hr; simp [runBody] at hr
  · rw [hf] at hr
    cases o with
    | none => simp [runBody] at hr
    | some a' =>
      simp [runBody] at hr
      rw [hr]

theorem loopSkipErrors_enumFrom_congr {C A E : Type}
    (f g : Nat → C → Except E (Option A)) (k : Nat)
    (hfg : ∀ i c, i ≠ k → f i c = g i c)
    (hf : ∀ c, runBody (f k c) = (none : Option A))
    (hg : ∀ c, runBody (g k c) = (none : Option A)) :
    ∀ (items : List C) (n : Nat),
      (items.enumFrom n).filterMap (fun p => runBody (f p.1 p.2)) =
      (items.enumFrom n).filterMap (fun p => runBody (g p.1 p.2)) := by
  intro items
  induction items with
  | nil => intro n; rfl
  | cons c t ih =>
    intro n
    simp only [List.enumFrom, List.filterMap_cons]
    by_cases hnk : n = k
    · subst hnk
      rw [hf c, hg c]
      exact ih (n + 1)
    · rw [hfg n c hnk]
      cases hr : runBody (g n c) with
      | none => simp only [hr]; exact ih (n + 1)
      | some b => simp only [hr]; rw [ih (n + 1)]

theorem ukItemBody_some_spec {cd : String} {idx : Nat} {it : UkScraper.UkItem}
    {e : Entry} (h : UkScraper.ukItemBody cd idx it = some e) :
    e.chart_date = cd ∧ e.rank = UkScraper.ukRank it.rankText idx ∧
      ¬(e.title = "Unknown Title" ∧ e.artist = "Unknown Artist") := by
  simp only [UkScraper.ukItemBody] at h
  split at h
  · exact absurd h (by simp)
  · next hcond =>
    rcases Option.some.inj h with rfl
    refine ⟨rfl, rfl, ?_⟩
    rintro ⟨ht, ha⟩
    simp only [Bool.and_eq_true, beq_iff_eq, not_and] at hcond
    exact hcond ht ha

theorem hot100Item_fields (cd : String) (idx : Nat) (it : Scraper.BItem) :
    (Scraper.hot100Item cd idx it).chart_date = cd ∧
      (Scraper.hot100Item cd idx it).rank = some (Scraper.hot100Rank it.rankText idx) :=
  ⟨rfl, rfl⟩

theorem billboard200Item_fields (cd : String) (idx : Nat) (it : Scraper.BItem) :
    (Scraper.billboard200Item cd idx it).chart_date = cd ∧
      (Scraper.billboard200Item cd idx it).rank = some (Scraper.hot100Rank it.rankText idx) :=
  ⟨rfl, rfl⟩

/-! ## Claim C4 (corrected) -/

/-- Claim C4, counterexample: `safe_int("3.5")` returns `3`, not null —
the code accepts a single dot anywhere in the token (converting through
`int(float(...))`), while the claim allows only a single *trailing* dot
and demands null for every other token (`safe_int_claimed`, the claim's
reading, returns null on `"3.5"`). -/
theorem safe_int_counterexample :
    UkScraper.safe_int (some "3.5") = some 3 ∧
      UkScraper.safe_int_claimed (some "3.5") = none := by
  constructor
  · decide
  · decide

/-- Claim C4, amended: `safe_int` maps the case-insensitive sentinel tokens
and the empty token to null, an all-digit token to its value, and a token
that consists of digits with exactly one dot anywhere (at least one digit)
to the truncated integer part; every other token to null
(`safe_int_amended` states exactly this contract); in particular
`safe_int("New") = null`, `safe_int("RE") = null`, `safe_int("12,") = 12`,
`safe_int("") = null`, `safe_int("7") = 7`. -/
theorem safe_int_contract_amended :
    (∀ v, UkScraper.safe_int v = UkScraper.safe_int_amended v) ∧
      UkScraper.safe_int (some "New") = none ∧
      UkScraper.safe_int (some "RE") = none ∧
      UkScraper.safe_int (some "12,") = some 12 ∧
      UkScraper.safe_int (some "") = none ∧
      UkScraper.safe_int (some "7") = some 7 := by
  refine ⟨?_, by decide, by decide, by decide, by decide, by decide⟩
  intro v
  cases v with
  | none => rfl
  | some s =>
    simp only [UkScraper.safe_int, UkScraper.safe_int_amended]
    rw [dotCond_eq]

/-! ## Claim C5 (confirmed) -/

/-- Claim C5: both extractors choose their container set with the cascade
`firstNonEmpty3`, which commits exclusively to the first selector whose
result is non-empty — the chosen result is independent of the later
selectors' results, and they are only consulted when every earlier one was
empty; when every selector comes back empty, the extractors return the
empty sequence (and, being total functions, raise nothing). -/
theorem strategy_cascade :
    (∀ (α : Type) (a b c : List α),
        (a ≠ [] → firstNonEmpty3 a b c = a) ∧
        (a = [] → b ≠ [] → firstNonEmpty3 a b c = b) ∧
        (a = [] → b = [] → firstNonEmpty3 a b c = c) ∧
        (∀ b' c', a ≠ [] → firstNonEmpty3 a b c = firstNonEmpty3 a b' c')) ∧
      (∀ today p, p.rows1 = [] → p.rows2 = [] → p.rows3 = [] →
        Scraper.parse_hot_100_items today p = []) ∧
      (∀ today p, p.rows1 = [] → p.rows2 = [] → p.rows3 = [] →
        Scraper.parse_billboard_200_items today p = []) ∧
      (∀ today p, p.sel1 = [] → p.sel2 = [] → p.sel3 = [] →
        UkScraper.parse_officialcharts_soup today p = []) := by
  refine ⟨?_, ?_, ?_, ?_⟩
  · intro α a b c
    refine ⟨?_, ?_, ?_, ?_⟩
    · intro ha; cases a with
      | nil => exact absurd rfl ha
      | cons x t => rfl
    · intro ha hb; subst ha; cases b with
      | nil => exact absurd rfl hb
      | cons x t => rfl
    · intro ha hb; subst ha; subst hb; rfl
    · intro b' c' ha; cases a with
      | nil => exact absurd rfl ha
      | cons x t => rfl
  · intro today p h1 h2 h3
    simp [Scraper.parse_hot_100_items, firstNonEmpty3, loopSkipErrors, h1, h2, h3]
  · intro today p h1 h2 h3
    simp [Scraper.parse_billboard_200_items, firstNonEmpty3, loopSkipErrors, h1, h2, h3]
  · intro today p h1 h2 h3
    simp [UkScraper.parse_officialcharts_soup, firstNonEmpty3, loopSkipErrors, h1, h2, h3]

/-- Witness for `strategy_cascade` at concrete inputs. -/
theorem strategy_cascade_witness :
    firstNonEmpty3 [1] [2] [3] = [1] ∧
      Scraper.parse_hot_100_items dEx bPageEmpty = [] :=
  ⟨(strategy_cascade.1 Nat [1] [2] [3]).1 (by decide),
    strategy_cascade.2.1 dEx bPageEmpty rfl rfl rfl⟩

/-! ## Claim C6 (corrected) -/

/-- Claim C6, counterexample: in scraper.py nothing catches a fetch error —
`main` with a failing Hot 100 fetch aborts with that error, even though the
Billboard 200 page would have produced a non-empty batch, so the caller
does *not* proceed to the next chart type; and in uk_scraper.py the error
does not propagate at all: `fetch_official_chart` swallows it and returns
the empty list. -/
theorem transport_error_counterexample :
    Scraper.main (.error "timeout") (.ok bPageBlankItem) dEx = .error "timeout" ∧
      Scraper.parse_billboard_200_items dEx bPageBlankItem ≠ [] ∧
      UkScraper.fetch_official_chart (.error "timeout") dEx = [] := by
  refine ⟨rfl, by decide, rfl⟩

/-- Claim C6, amended: transport failures are isolated per chart only in
the UK scraper, and there the error is swallowed rather than propagated:
`fetch_official_chart` catches the failure and returns an empty batch, and
the run proceeds to the albums chart unchanged; in scraper.py the failure
propagates uncaught out of `main`, so the charts after the failing one are
never scraped or persisted. -/
theorem transport_isolation_amended :
    (∀ err today, UkScraper.fetch_official_chart (.error err) today = []) ∧
      (∀ err resp2 today, UkScraper.update_uk_charts (.error err) resp2 today =
        [("uk_singles_entries", []),
         ("uk_albums_entries", UkScraper.fetch_official_chart resp2 today)]) ∧
      (∀ err fetch2 today, Scraper.main (.error err) fetch2 today = .error err) ∧
      (∀ p1 err today, Scraper.main (.ok p1) (.error err) today = .error err) := by
  refine ⟨fun err today => rfl, fun err resp2 today => rfl, fun err fetch2 today => rfl,
    fun p1 err today => rfl⟩

/-! ## Claim C7 (confirmed) -/

/-- Claim C7: for a non-empty batch (with the batch's chart date present),
`replace_entries_for_date` always issues both requests — a failed DELETE
only skips the deletion and never prevents the INSERT from being issued —
and the result is an error exactly when the INSERT fails, in which case the
error propagates to the caller. -/
theorem reconciler_error_asymmetry (e0 : Entry) (rest store : List Entry)
    (h : e0.chart_date ≠ "") :
    (∀ deleteOk insertOk,
        (UkScraper.replace_entries_for_date deleteOk insertOk store (e0 :: rest)).2 =
          ⟨true, true⟩) ∧
      (∀ deleteOk,
        (UkScraper.replace_entries_for_date deleteOk false store (e0 :: rest)).1 =
          .error "insert failed") ∧
      (∀ deleteOk,
        (UkScraper.replace_entries_for_date deleteOk true store (e0 :: rest)).1 =
          .ok ((if deleteOk then
                  store.filter (fun r => !(r.chart_date == e0.chart_date))
                else store) ++ (e0 :: rest))) := by
  refine ⟨?_, ?_, ?_⟩
  · intro deleteOk insertOk
    simp only [UkScraper.replace_entries_for_date, if_neg h]
    cases insertOk <;> rfl
  · intro deleteOk
    simp only [UkScraper.replace_entries_for_date, if_neg h]
    simp
  · intro deleteOk
    simp only [UkScraper.replace_entries_for_date, if_neg h]
    simp

/-- Witness for `reconciler_error_asymmetry` at a concrete store and batch. -/
theorem reconciler_error_asymmetry_witness :
    (UkScraper.replace_entries_for_date false false storeEx batchEx).2 = ⟨true, true⟩ ∧
      (UkScraper.replace_entries_for_date true false storeEx batchEx).1 =
        .error "insert failed" := by
  have h := reconciler_error_asymmetry (rowEx 1 "New1") [rowEx 2 "New2"] storeEx
    (by decide)
  exact ⟨h.1 false false, h.2.1 true⟩

/-! ## Claim C10 (confirmed) -/

/-- Claim C10: the per-item `try`/`except`/`continue` loop shared by all
three extractors (`loopSkipErrors`, over which `parse_hot_100_items`,
`parse_billboard_200_items` and `parse_officialcharts_soup` are defined)
isolates per-item faults: a body that raises at item `k` is caught and
contributes no entry, and the entries produced for every other item are
unchanged — replacing the behaviour at `k` by any other raising or skipping
behaviour leaves the extractor's whole output identical, and the loop
itself never raises (it is a total function into entry lists). -/
theorem loop_fault_isolation {C A E : Type}
    (f g : Nat → C → Except E (Option A)) (k : Nat)
    (hfg : ∀ i c, i ≠ k → f i c = g i c)
    (hf : ∀ c, runBody (f k c) = (none : Option A))
    (hg : ∀ c, runBody (g k c) = (none : Option A)) :
    ∀ items : List C, loopSkipErrors f items = loopSkipErrors g items := by
  intro items
  unfold loopSkipErrors
  exact loopSkipErrors_enumFrom_congr f g k hfg hf hg items 0

/-- Witness for `loop_fault_isolation`: a body raising at item 0 produces
the same entries as one skipping item 0 silently. -/
theorem loop_fault_isolation_witness :
    loopSkipErrors exBodyF [(), (), ()] = loopSkipErrors exBodyG [(), (), ()] :=
  loop_fault_isolation exBodyF exBodyG 0
    (by intro i c h; simp [exBodyF, exBodyG, h])
    (by intro c; simp [exBodyF, runBody])
    (by intro c; simp [exBodyG, runBody])
    [(), (), ()]

/-! ## Claim C1 (corrected) -/

/-- Claim C1, counterexample: re-running through `supabase_upsert` with a
shorter batch does *not* leave the row set equal to the batch — the store
held 3 rows for the date, the new batch has 2, and after the upsert the
rank-3 row from the previous run is still persisted (merge-duplicates only
overwrites rows whose `(chart_date, rank)` collides with the batch). -/
theorem upsert_shorter_batch_counterexample :
    Scraper.supabase_upsert true storeEx batchEx =
      .ok [rowEx 1 "New1", rowEx 2 "New2", rowEx 3 "Old3"] ∧
      rowsForDate [rowEx 1 "New1", rowEx 2 "New2", rowEx 3 "Old3"] "2025-11-22" ≠
        batchEx := by
  exact ⟨rfl, by decide⟩

/-- Claim C1, amended: the date-scoped replace holds for the UK reconciler
`replace_entries_for_date` — when both requests succeed and the batch's
entries all carry the chart date `d`, the persisted rows for `d` afterwards
are exactly the batch — whereas `supabase_upsert` only overwrites colliding
`(chart_date, rank)` rows, so rows at ranks absent from a shorter re-run
batch survive (see the counterexample). -/
theorem replace_entries_for_date_exact (d : String) (e0 : Entry)
    (rest store : List Entry) (hall : ∀ e ∈ e0 :: rest, e.chart_date = d)
    (hne : d ≠ "") :
    (UkScraper.replace_entries_for_date true true store (e0 :: rest)).1 =
      .ok (store.filter (fun r => !(r.chart_date == d)) ++ (e0 :: rest)) ∧
      rowsForDate (store.filter (fun r => !(r.chart_date == d)) ++ (e0 :: rest)) d =
        e0 :: rest := by
  have hd0 : e0.chart_date = d := hall e0 (List.mem_cons_self _ _)
  constructor
  · have hne0 : e0.chart_date ≠ "" := by rw [hd0]; exact hne
    simp only [UkScraper.replace_entries_for_date, if_neg hne0, hd0]
    rw [if_neg hne]
    simp
  · unfold rowsForDate
    rw [List.filter_append]
    have h1 : (store.filter (fun r => !(r.chart_date == d))).filter
        (fun r => r.chart_date == d) = [] := by
      rw [List.filter_eq_nil_iff]
      intro a ha
      rcases List.mem_filter.mp ha with ⟨-, hpa⟩
      simpa using hpa
    have h2 : List.filter (fun r => r.chart_date == d) (e0 :: rest) = e0 :: rest := by
      rw [List.filter_eq_self]
      intro a ha
      simp [hall a ha]
    rw [h1, h2, List.nil_append]

/-- Witness for `replace_entries_for_date_exact` at the concrete store and
shorter batch: the delete-then-insert reconciler leaves exactly the batch. -/
theorem replace_entries_for_date_exact_witness :
    (UkScraper.replace_entries_for_date true true storeEx batchEx).1 =
      .ok (storeEx.filter (fun r => !(r.chart_date == "2025-11-22")) ++ batchEx) ∧
      rowsForDate (storeEx.filter (fun r => !(r.chart_date == "2025-11-22")) ++ batchEx)
        "2025-11-22" = batchEx :=
  replace_entries_for_date_exact "2025-11-22" (rowEx 1 "New1") [rowEx 2 "New2"]
    storeEx (by decide) (by decide)

/-! ## Claim C2 (corrected) -/

/-- Claim C2, counterexample: the Billboard parsers apply no sentinel
filter — a Hot 100 container in which neither the title nor the artist
lookup matches yields the double-sentinel entry, and `main` hands exactly
that batch to `supabase_upsert`. -/
theorem double_sentinel_reaches_upsert_counterexample :
    Scraper.main (.ok bPageBlankItem) (.ok bPageEmpty) dEx =
      .ok [("hot_100_entries", [sentinelEntryEx])] ∧
      sentinelEntryEx.title = "Unknown Title" ∧
      sentinelEntryEx.artist = "Unknown Artist" :=
  ⟨rfl, rfl, rfl⟩

/-- Claim C2, amended: the validation filter is applied only by the UK
extractor — no entry produced by `parse_officialcharts_soup` (hence no
entry in any batch handed to `replace_entries_for_date`) has both the
sentinel title and the sentinel artist; the Billboard parsers keep such
entries and they can reach `supabase_upsert` (see the counterexample). -/
theorem double_sentinel_filtered_uk (today : PyDate) (p : UkScraper.UkPage)
    (e : Entry) (h : e ∈ UkScraper.parse_officialcharts_soup today p) :
    ¬(e.title = "Unknown Title" ∧ e.artist = "Unknown Artist") := by
  simp only [UkScraper.parse_officialcharts_soup] at h
  rcases mem_loopSkipErrors _ _ _ h with ⟨i, c, hc⟩
  exact (ukItemBody_some_spec (Except.ok.inj hc)).2.2

/-- Witness for `double_sentinel_filtered_uk` on a concrete parsed entry. -/
theorem double_sentinel_filtered_uk_witness :
    ¬(ukEntryGood.title = "Unknown Title" ∧ ukEntryGood.artist = "Unknown Artist") :=
  double_sentinel_filtered_uk dEx ukPageGood ukEntryGood (by decide)

/-! ## Claim C3 (corrected) -/

/-- Claim C3, counterexample: the UK extractor emits a *null* rank when the
rank element is present but unparsable (`"New"`), because the `idx + 1`
fallback applies only when the element is absent; and the Hot 100 extractor
emits rank `0` when the rank token is `"0"`, so neither `rank >= 1` nor
"never null" holds as claimed. -/
theorem rank_counterexample :
    (UkScraper.parse_officialcharts_soup dEx ukPageNewRank).map (fun e => e.rank) =
      [none] ∧
      (Scraper.parse_hot_100_items dEx bPageZeroRank).map (fun e => e.rank) =
        [some 0] := by
  exact ⟨by decide, by decide⟩

/-- Claim C3, amended: the Billboard extractors never emit a null rank, and
fall back to `1 +` the 0-based position exactly when the rank element is
missing or its token has no digit run (a parsed digit run is used as-is,
and may be `0`); the UK extractor falls back to `1 +` position only when
the rank element is absent, and otherwise emits `safe_int` of the token,
which is null for an unparsable token. -/
theorem rank_fallback_amended :
    (∀ today p e, e ∈ Scraper.parse_hot_100_items today p → e.rank.isSome = true) ∧
      (∀ today p e, e ∈ Scraper.parse_billboard_200_items today p →
        e.rank.isSome = true) ∧
      (∀ idx, Scraper.hot100Rank none idx = idx + 1) ∧
      (∀ s idx, firstDigitRun (pyStrip s) = none →
        Scraper.hot100Rank (some s) idx = idx + 1) ∧
      (∀ idx, UkScraper.ukRank none idx = some (idx + 1)) ∧
      (∀ s idx, UkScraper.ukRank (some s) idx = UkScraper.safe_int (some (pyStrip s))) ∧
      (∀ cd idx it e, UkScraper.ukItemBody cd idx it = some e →
        e.rank = UkScraper.ukRank it.rankText idx) := by
  refine ⟨?_, ?_, fun idx => rfl, ?_, fun idx => rfl, fun s idx => rfl, ?_⟩
  · intro today p e h
    simp only [Scraper.parse_hot_100_items] at h
    rcases mem_loopSkipErrors _ _ _ h with ⟨i, c, hc⟩
    rw [← Option.some.inj (Except.ok.inj hc)]
    rfl
  · intro today p e h
    simp only [Scraper.parse_billboard_200_items] at h
    rcases mem_loopSkipErrors _ _ _ h with ⟨i, c, hc⟩
    rw [← Option.some.inj (Except.ok.inj hc)]
    rfl
  · intro s idx h
    simp [Scraper.hot100Rank, h]
  · intro cd idx it e h
    exact (ukItemBody_some_spec h).2.1

/-- Witness for `rank_fallback_amended`: the Hot 100 fallback rank at
position 0 for the digit-free token `"New"`. -/
theorem rank_fallback_amended_witness :
    Scraper.hot100Rank (some "New") 0 = 1 :=
  rank_fallback_amended.2.2.2.1 "New" 0 (by decide)

/-! ## Claim C8 (corrected) -/

/-- Claim C8, counterexample: `extract_metric_number` matches the label by
*exact, case-sensitive* text equality — a label element reading `"Lw"`
followed by the numeric value `"5"` yields null for `"LW"`, while the
claim's case-insensitive reading (`extract_metric_number_claimed`) yields
`5` on the same container. -/
theorem metric_label_case_counterexample :
    Scraper.extract_metric_number elemsLwCase "LW" = none ∧
      Scraper.extract_metric_number_claimed elemsLwCase "LW" = some 5 := by
  exact ⟨by decide, by decide⟩

/-- Claim C8, amended: `extract_metric_number` matches the label
sub-element by exact case-sensitive equality (and strips dashes, not
commas, when qualifying the value element); it returns null when no label
element matches, and any value it returns is the numeric reading of a
following element whose own stripped text is purely numeric — it is a
total function and never emits raw non-numeric text. -/
theorem extract_metric_amended :
    ∀ (container : List Elem) (label : String),
      ((container.findIdx? (fun t => Scraper.isSpanDiv t && pyStrip t.text == label)).isNone →
        Scraper.extract_metric_number container label = none) ∧
      (∀ n, Scraper.extract_metric_number container label = some n →
        ∃ t, t ∈ container ∧ Scraper.isSpanDiv t = true ∧
          pyIsDigit (pyStrip t.text) = true ∧
          n = natOfDigitsL (pyStrip t.text).toList) := by
  intro container label
  constructor
  · intro h
    rw [Option.isNone_iff_eq_none] at h
    simp [Scraper.extract_metric_number, h]
  · intro n h
    simp only [Scraper.extract_metric_number] at h
    split at h
    · exact absurd h (by simp)
    · next i hidx =>
      split at h
      · exact absurd h (by simp)
      · next vtag hfind =>
        split at h
        · exact absurd h (by simp)
        · next hdig =>
          have hmem : vtag ∈ container :=
            List.drop_subset _ _ (List.mem_of_find?_eq_some hfind)
          have hpred := List.find?_some hfind
          rw [Bool.and_eq_true] at hpred
          have hdig' : pyIsDigit (pyStrip vtag.text) = true := by
            simpa using hdig
          exact ⟨vtag, hmem, hpred.1, hdig', (Option.some.inj h).symm⟩

/-- Witness for `extract_metric_amended`: no label element, null metric. -/
theorem extract_metric_amended_witness :
    Scraper.extract_metric_number [] "LW" = none :=
  (extract_metric_amended [] "LW").1 (by decide)

/-! ## Claim C9 (confirmed) -/

/-- Claim C9: when no recognized date pattern parses, the Billboard
resolver `extract_chart_date` signals null (it is a total function, so
nothing is raised), and both Billboard parsers then stamp every extracted
entry with the current date and continue; the UK resolver applies the same
current-date fallback (directly returning it), and the UK parser stamps
every extracted entry with it — an unresolved date never aborts extraction
or persistence. -/
theorem date_fallback_policy :
    (∀ p today, Scraper.extract_chart_date p = none →
      ∀ e ∈ Scraper.parse_hot_100_items today p, e.chart_date = isoOfDate today) ∧
      (∀ p today, Scraper.extract_chart_date p = none →
        ∀ e ∈ Scraper.parse_billboard_200_items today p,
          e.chart_date = isoOfDate today) ∧
      (∀ p today, UkScraper.ukParsedDate p = none →
        UkScraper.extract_chart_date_from_soup today p = isoOfDate today) ∧
      (∀ p today, UkScraper.ukParsedDate p = none →
        ∀ e ∈ UkScraper.parse_officialcharts_soup today p,
          e.chart_date = isoOfDate today) := by
  refine ⟨?_, ?_, ?_, ?_⟩
  · intro p today hd e he
    simp only [Scraper.parse_hot_100_items, hd, Option.getD_none] at he
    rcases mem_loopSkipErrors _ _ _ he with ⟨i, c, hc⟩
    rw [← Option.some.inj (Except.ok.inj hc)]
    rfl
  · intro p today hd e he
    simp only [Scraper.parse_billboard_200_items, hd, Option.getD_none] at he
    rcases mem_loopSkipErrors _ _ _ he with ⟨i, c, hc⟩
    rw [← Option.some.inj (Except.ok.inj hc)]
    rfl
  · intro p today hd
    simp [UkScraper.extract_chart_date_from_soup, hd]
  · intro p today hd e he
    simp only [UkScraper.parse_officialcharts_soup,
      UkScraper.extract_chart_date_from_soup, hd, Option.getD_none] at he
    rcases mem_loopSkipErrors _ _ _ he with ⟨i, c, hc⟩
    exact (ukItemBody_some_spec (Except.ok.inj hc)).1

/-- Witness for `date_fallback_policy` on a concrete dateless UK page. -/
theorem date_fallback_policy_witness :
    ukEntryGood.chart_date = isoOfDate dEx :=
  date_fallback_policy.2.2.2 ukPageGood dEx (by decide) ukEntryGood (by decide)
